import Mathlib

/-!
Shallow embedding of the `spotify/artist.py` binding module: the `Artist`
and `ArtistBrowser` wrappers, their constructors and destructors (reference
counting via `ffi.gc`), the artist-browse completion callback, and the lazy
collection properties.  The native libspotify SDK is modelled as a black-box
record of functions (`SpLib`); every native call that mutates reference
counts or creates native objects is recorded in an explicit trace so that
lifecycle properties can be stated over it.
-/

namespace PySpotify

/-- Native pointers are modelled as naturals; `0` plays the role of
`ffi.NULL`. -/
abbrev Ptr := Nat

/-- Python-level exceptions that the embedded code can raise. -/
inductive PyError
  | assertionError (msg : String)
  | valueError (msg : String)
  | keyError
  | typeError (msg : String)
  deriving DecidableEq, Repr

/-- Native calls recorded by the embedding.  Reference-count mutations,
browse creation (which hands the caller an owned reference) and image
creation are the calls the claims reason about; pure read accessors are not
traced. -/
inductive NativeCall
  | linkResolve (uri : String)
  | addRefArtist (p : Ptr)
  | releaseArtist (p : Ptr)
  | addRefBrowse (p : Ptr)
  | releaseBrowse (p : Ptr)
  | browseCreate (session artistPtr : Ptr) (browseType : Int)
      (userdata : Ptr) (result : Ptr)
  | imageCreateCall (args : List Ptr)
  deriving DecidableEq, Repr

/-- The native SDK surface used by `artist.py`, as a black box.
`link_as_artist` models `spotify.Link(uri).as_artist()` (`none` when the
URI does not denote an artist). -/
structure SpLib where
  link_as_artist : String → Option Ptr
  sp_artist_is_loaded : Ptr → Bool
  sp_artist_name : Ptr → String
  sp_artist_portrait : Ptr → Int → Ptr
  sp_image_create : Ptr → Ptr → Ptr
  sp_artistbrowse_create : Ptr → Ptr → Int → Ptr → Ptr
  sp_artistbrowse_is_loaded : Ptr → Bool
  sp_artistbrowse_error : Ptr → Int
  sp_artistbrowse_backend_request_duration : Ptr → Int
  sp_artistbrowse_num_portraits : Ptr → Nat
  sp_artistbrowse_portrait : Ptr → Nat → Ptr
  sp_artistbrowse_num_tracks : Ptr → Nat
  sp_artistbrowse_track : Ptr → Nat → Ptr
  sp_artistbrowse_num_tophit_tracks : Ptr → Nat
  sp_artistbrowse_tophit_track : Ptr → Nat → Ptr
  sp_artistbrowse_num_albums : Ptr → Nat
  sp_artistbrowse_album : Ptr → Nat → Ptr
  sp_artistbrowse_num_similar_artists : Ptr → Nat
  sp_artistbrowse_similar_artist : Ptr → Nat → Ptr

/-- Python truthiness of an optional string argument (`None` and `''` are
falsy). -/
def truthyStr : Option String → Bool
  | none => false
  | some s => !s.isEmpty

/-- Python truthiness of an optional cdata pointer argument (`None` and a
NULL pointer are falsy under cffi). -/
def truthyPtr : Option Ptr → Bool
  | none => false
  | some p => p != 0

/-- `SP_IMAGE_SIZE_NORMAL`, the default of `portrait` / `portrait_link`. -/
def ImageSizeNORMAL : Int := 0

/-- `ArtistBrowserType`, generated from the `SP_ARTISTBROWSE_` native
constants (`FULL = 0`, `NO_TRACKS = 1`, `NO_ALBUMS = 2`). -/
inductive ArtistBrowserType
  | full
  | no_tracks
  | no_albums
  deriving DecidableEq, Repr

/-- `int(type)`: the native integer of an `ArtistBrowserType` value. -/
def ArtistBrowserType.toInt : ArtistBrowserType → Int
  | .full => 0
  | .no_tracks => 1
  | .no_albums => 2

/-- The `Artist` wrapper: it owns exactly the `_sp_artist` handle. -/
structure Artist where
  sp_artist : Ptr
  deriving DecidableEq, Repr

/-- `Artist.__init__(uri, sp_artist)`: asserts that one of the two
arguments is given; resolves the URI through the link resolver when a URI
is passed (raising `ValueError` — the spec's `InvalidURI` — when the URI
does not denote an artist); then acquires the handle with
`sp_artist_add_ref` and registers `sp_artist_release` via `ffi.gc`.
Returns the constructed wrapper (or the raised error) together with the
trace of native calls made. -/
def Artist.init (L : SpLib) (uri : Option String) (sp0 : Option Ptr) :
    Except PyError Artist × List NativeCall :=
  if !(truthyStr uri || truthyPtr sp0) then
    (.error (.assertionError "uri or sp_artist is required"), [])
  else
    match uri with
    | some u =>
        match L.link_as_artist u with
        | none =>
            (.error (.valueError "Failed to get artist from Spotify URI"),
             [.linkResolve u])
        | some p =>
            (.ok ⟨p⟩, [.linkResolve u, .addRefArtist p])
    | none =>
        match sp0 with
        | some p => (.ok ⟨p⟩, [.addRefArtist p])
        | none => (.error (.assertionError "uri or sp_artist is required"), [])

/-- Destruction of an `Artist` wrapper: the `ffi.gc`-registered finalizer
runs `sp_artist_release` exactly once. -/
def Artist.destroy (a : Artist) : List NativeCall :=
  [.releaseArtist a.sp_artist]

/-- `artist.is_loaded`. -/
def Artist.is_loaded (L : SpLib) (a : Artist) : Bool :=
  L.sp_artist_is_loaded a.sp_artist

/-- The `ArtistBrowser` wrapper: native handle, the `threading.Event`
(`complete_event`, modelled by its set/unset state) and the
`_callback_handles` registration set (modelled as a duplicate-free list). -/
structure ArtistBrowser where
  sp_artistbrowse : Ptr
  complete_event : Bool
  callback_handles : List Ptr
  deriving DecidableEq, Repr

/-- `ArtistBrowser.__init__(artist, type, callback, sp_artistbrowse,
add_ref)`.  `newHandle` stands for the fresh (never NULL) token produced by
`ffi.new_handle((callback, self))`; `hasCallback` records whether the user
callback stored inside that token is not `None`.  When no native browse
handle is supplied, the browse type defaults to `FULL`, the token is added
to `_callback_handles`, `sp_artistbrowse_create` is issued (its result is
an owned reference, so `add_ref` is forced to `False`); otherwise the given
handle is acquired with `sp_artistbrowse_add_ref` unless `add_ref` is
`False`.  In all success paths `sp_artistbrowse_release` is registered via
`ffi.gc`. -/
def ArtistBrowser.init (L : SpLib) (session : Ptr) (artist : Option Artist)
    (btype : Option ArtistBrowserType) (_hasCallback : Bool)
    (sp_ab0 : Option Ptr) (add_ref : Bool) (newHandle : Ptr) :
    Except PyError ArtistBrowser × List NativeCall :=
  if !(artist.isSome || truthyPtr sp_ab0) then
    (.error (.assertionError "artist or sp_artistbrowse is required"), [])
  else
    match sp_ab0 with
    | none =>
        match artist with
        | some a =>
            let t := btype.getD ArtistBrowserType.full
            let sp_ab :=
              L.sp_artistbrowse_create session a.sp_artist t.toInt newHandle
            (.ok { sp_artistbrowse := sp_ab, complete_event := false,
                   callback_handles := [newHandle] },
             [.browseCreate session a.sp_artist t.toInt newHandle sp_ab])
        | none =>
            (.error (.assertionError "artist or sp_artistbrowse is required"),
             [])
    | some p =>
        if add_ref then
          (.ok { sp_artistbrowse := p, complete_event := false,
                 callback_handles := [] },
           [.addRefBrowse p])
        else
          (.ok { sp_artistbrowse := p, complete_event := false,
                 callback_handles := [] },
           [])

/-- Destruction of an `ArtistBrowser` wrapper: the `ffi.gc`-registered
finalizer runs `sp_artistbrowse_release` exactly once. -/
def ArtistBrowser.destroy (b : ArtistBrowser) : List NativeCall :=
  [.releaseBrowse b.sp_artistbrowse]

/-- `browser.is_loaded`. -/
def ArtistBrowser.is_loaded (L : SpLib) (b : ArtistBrowser) : Bool :=
  L.sp_artistbrowse_is_loaded b.sp_artistbrowse

/-- `browser.backend_request_duration`: `None` until loaded, else the raw
native duration (whose `-1` value is the served-from-cache sentinel). -/
def ArtistBrowser.backend_request_duration (L : SpLib) (b : ArtistBrowser) :
    Option Int :=
  if !(b.is_loaded L) then
    none
  else
    some (L.sp_artistbrowse_backend_request_duration b.sp_artistbrowse)

/-- `Artist.browse(type, callback)`: delegates to the `ArtistBrowser`
constructor with this artist; `newHandle` is the fresh token the
constructor will create. -/
def Artist.browse (L : SpLib) (session : Ptr) (a : Artist)
    (btype : Option ArtistBrowserType) (hasCallback : Bool) (newHandle : Ptr) :
    Except PyError ArtistBrowser × List NativeCall :=
  ArtistBrowser.init L session (some a) btype hasCallback none true newHandle

/-- Observable actions of `_artistbrowse_complete_callback`, in the order
the callback body performs them. -/
inductive CallbackAction
  | logDebug
  | logWarning
  | removeHandle (h : Ptr)
  | setEvent
  | userCallback
  deriving DecidableEq, Repr

/-- `_artistbrowse_complete_callback(sp_artistbrowse, handle)`.  The body
logs, returns harmlessly on a NULL userdata handle, and otherwise unpacks
`(callback, artist_browser) = ffi.from_handle(handle)` (modelled by the
`hasCallback` flag for the stored user callback and `b` for the stored
browser), removes the handle from `_callback_handles` (a `set.remove`,
raising `KeyError` if absent — `ffi.from_handle` is only defined for live
registered handles, so in the model the handle is looked up in the set),
sets `complete_event`, and finally invokes the user callback if any.
Returns the updated browser state and the ordered action list. -/
def artistbrowse_complete_callback (_sp_artistbrowse : Ptr) (handle : Ptr)
    (hasCallback : Bool) (b : ArtistBrowser) :
    Except PyError (ArtistBrowser × List CallbackAction) :=
  if handle == 0 then
    .ok (b, [.logDebug, .logWarning])
  else if handle ∈ b.callback_handles then
    .ok ({ sp_artistbrowse := b.sp_artistbrowse,
           complete_event := true,
           callback_handles := b.callback_handles.erase handle },
         [.logDebug, .removeHandle handle, .setEvent] ++
           (if hasCallback then [.userCallback] else []))
  else
    .error .keyError

/-- The `Image` wrapper (constructed with `add_ref=False`, adopting the
reference produced by `sp_image_create`). -/
structure Image where
  sp_image : Ptr
  deriving DecidableEq, Repr

/-- Modelled from the spec: `spotify.Track` wraps a native track reference
(its own module is outside the embedded source; nothing about its
internals is needed by the claims). -/
structure Track where
  sp_track : Ptr
  deriving DecidableEq, Repr

/-- Modelled from the spec: `spotify.Album` wraps a native album reference
(its own module is outside the embedded source). -/
structure Album where
  sp_album : Ptr
  deriving DecidableEq, Repr

/-- A call through cffi to the two-argument native function
`sp_image_create(session, image_id)`: cffi raises `TypeError` when the
Python call site does not supply exactly two arguments. -/
def spImageCreateCall (L : SpLib) (args : List Ptr) : Except PyError Ptr :=
  match args with
  | [session, image_id] => .ok (L.sp_image_create session image_id)
  | _ => .error (.typeError "sp_image_create expects exactly 2 arguments")

/-- `Artist.portrait(image_size)`: default size `NORMAL`; `None` when the
native portrait id is NULL; otherwise creates the image through the
session-global native session handle (`session` stands for
`spotify.session_instance._sp_session`). -/
def Artist.portrait (L : SpLib) (session : Ptr) (a : Artist)
    (image_size : Option Int) :
    Except PyError (Option Image) × List NativeCall :=
  let size := image_size.getD ImageSizeNORMAL
  let portrait_id := L.sp_artist_portrait a.sp_artist size
  if portrait_id == 0 then
    (.ok none, [])
  else
    match spImageCreateCall L [session, portrait_id] with
    | .ok sp_image => (.ok (some ⟨sp_image⟩), [.imageCreateCall [session, portrait_id]])
    | .error e => (.error e, [])

/-- The `get_image` closure inside `ArtistBrowser.portraits`.  Faithful to
the source, which calls `lib.sp_image_create(image_id)` with the image id
as its ONLY argument, omitting the session handle (contrast
`Artist.portrait`); the two-argument cffi function therefore raises
`TypeError` before any native call is made. -/
def portraitsGetImage (L : SpLib) (sp_artistbrowse : Ptr) (key : Nat) :
    Except PyError Image × List NativeCall :=
  let image_id := L.sp_artistbrowse_portrait sp_artistbrowse key
  match spImageCreateCall L [image_id] with
  | .ok sp_image => (.ok ⟨sp_image⟩, [.imageCreateCall [image_id]])
  | .error e => (.error e, [])

/-- `utils.Sequence(sp_obj, add_ref_func, release_func, len_func,
getitem_func)`: the record of the constructor arguments the collection
properties pass; elements are materialised on demand by `getitem_func`
(which may itself raise and perform native calls). -/
structure Sequence (α : Type) where
  sp_obj : Ptr
  add_ref_func : Ptr → NativeCall
  release_func : Ptr → NativeCall
  len_func : Ptr → Nat
  getitem_func : Ptr → Nat → Except PyError α × List NativeCall

/-- A collection property returns either the Python literal `[]` (when the
browser is not loaded) or a lazy `utils.Sequence`. -/
inductive CollectionResult (α : Type)
  | emptyList
  | seq (s : Sequence α)

/-- `browser.portraits`. -/
def ArtistBrowser.portraits (L : SpLib) (b : ArtistBrowser) :
    CollectionResult Image :=
  if !(b.is_loaded L) then
    .emptyList
  else
    .seq { sp_obj := b.sp_artistbrowse,
           add_ref_func := NativeCall.addRefBrowse,
           release_func := NativeCall.releaseBrowse,
           len_func := L.sp_artistbrowse_num_portraits,
           getitem_func := fun sp key => portraitsGetImage L sp key }

/-- `browser.tracks`. -/
def ArtistBrowser.tracks (L : SpLib) (b : ArtistBrowser) :
    CollectionResult Track :=
  if !(b.is_loaded L) then
    .emptyList
  else
    .seq { sp_obj := b.sp_artistbrowse,
           add_ref_func := NativeCall.addRefBrowse,
           release_func := NativeCall.releaseBrowse,
           len_func := L.sp_artistbrowse_num_tracks,
           getitem_func := fun sp key =>
             (.ok ⟨L.sp_artistbrowse_track sp key⟩, []) }

/-- `browser.tophit_tracks`. -/
def ArtistBrowser.tophit_tracks (L : SpLib) (b : ArtistBrowser) :
    CollectionResult Track :=
  if !(b.is_loaded L) then
    .emptyList
  else
    .seq { sp_obj := b.sp_artistbrowse,
           add_ref_func := NativeCall.addRefBrowse,
           release_func := NativeCall.releaseBrowse,
           len_func := L.sp_artistbrowse_num_tophit_tracks,
           getitem_func := fun sp key =>
             (.ok ⟨L.sp_artistbrowse_tophit_track sp key⟩, []) }

/-- `browser.albums`. -/
def ArtistBrowser.albums (L : SpLib) (b : ArtistBrowser) :
    CollectionResult Album :=
  if !(b.is_loaded L) then
    .emptyList
  else
    .seq { sp_obj := b.sp_artistbrowse,
           add_ref_func := NativeCall.addRefBrowse,
           release_func := NativeCall.releaseBrowse,
           len_func := L.sp_artistbrowse_num_albums,
           getitem_func := fun sp key =>
             (.ok ⟨L.sp_artistbrowse_album sp key⟩, []) }

/-- `browser.similar_artists`: elements are built with
`spotify.Artist(sp_artist=...)`, i.e. the real `Artist` constructor. -/
def ArtistBrowser.similar_artists (L : SpLib) (b : ArtistBrowser) :
    CollectionResult Artist :=
  if !(b.is_loaded L) then
    .emptyList
  else
    .seq { sp_obj := b.sp_artistbrowse,
           add_ref_func := NativeCall.addRefBrowse,
           release_func := NativeCall.releaseBrowse,
           len_func := L.sp_artistbrowse_num_similar_artists,
           getitem_func := fun sp key =>
             Artist.init L none (some (L.sp_artistbrowse_similar_artist sp key)) }

/-- `true` on native calls that hand the wrapper ownership of one
reference to `p`: an explicit `add_ref`, or a `create` call returning `p`
(whose result arrives already owned). -/
def isAcqFor (p : Ptr) : NativeCall → Bool
  | .addRefArtist q => q == p
  | .addRefBrowse q => q == p
  | .browseCreate _ _ _ _ r => r == p
  | _ => false

/-- `true` on native calls that release one reference to `p`. -/
def isRelFor (p : Ptr) : NativeCall → Bool
  | .releaseArtist q => q == p
  | .releaseBrowse q => q == p
  | _ => false

/-- The number of references to `p` a trace acquires. -/
def acquisitions (p : Ptr) (tr : List NativeCall) : Nat :=
  tr.countP (isAcqFor p)

/-- The number of references to `p` a trace releases. -/
def releases (p : Ptr) (tr : List NativeCall) : Nat :=
  tr.countP (isRelFor p)

/-- The number of `sp_artistbrowse_create` calls in a trace. -/
def countBrowseCreates (tr : List NativeCall) : Nat :=
  tr.countP fun c =>
    match c with
    | .browseCreate _ _ _ _ _ => true
    | _ => false

/-- One owned reference is transferred into the wrapper from outside the
trace exactly when an existing native browse handle is supplied together
with `add_ref=False` (the caller hands over a reference it already owns). -/
def externOwned (sp_ab0 : Option Ptr) (add_ref : Bool) : Nat :=
  match sp_ab0, add_ref with
  | some _, false => 1
  | _, _ => 0

/-- Full lifecycle of an `Artist` wrapper: construct, then destroy.
Returns the wrapped pointer and the complete native-call trace (or `none`
when construction raised). -/
def runArtistLifecycle (L : SpLib) (uri : Option String) (sp0 : Option Ptr) :
    Option (Ptr × List NativeCall) :=
  match Artist.init L uri sp0 with
  | (.ok a, tr) => some (a.sp_artist, tr ++ a.destroy)
  | (.error _, _) => none

/-- Full lifecycle of an `ArtistBrowser` wrapper: construct, then destroy. -/
def runBrowserLifecycle (L : SpLib) (session : Ptr) (artist : Option Artist)
    (btype : Option ArtistBrowserType) (hasCallback : Bool)
    (sp_ab0 : Option Ptr) (add_ref : Bool) (newHandle : Ptr) :
    Option (Ptr × List NativeCall) :=
  match ArtistBrowser.init L session artist btype hasCallback sp_ab0 add_ref
      newHandle with
  | (.ok b, tr) => some (b.sp_artistbrowse, tr ++ b.destroy)
  | (.error _, _) => none

/-- A small concrete native SDK used to instantiate the theorems with
hypotheses on closed inputs. -/
def testLib : SpLib where
  link_as_artist := fun u => if u = "a" then some 7 else none
  sp_artist_is_loaded := fun _ => false
  sp_artist_name := fun _ => ""
  sp_artist_portrait := fun p _ => p + 1
  sp_image_create := fun session image_id => session + image_id
  sp_artistbrowse_create := fun _ _ _ _ => 42
  sp_artistbrowse_is_loaded := fun p => p == 42
  sp_artistbrowse_error := fun _ => 0
  sp_artistbrowse_backend_request_duration := fun _ => -1
  sp_artistbrowse_num_portraits := fun _ => 2
  sp_artistbrowse_portrait := fun p key => p + key
  sp_artistbrowse_num_tracks := fun _ => 3
  sp_artistbrowse_track := fun p key => p + key
  sp_artistbrowse_num_tophit_tracks := fun _ => 1
  sp_artistbrowse_tophit_track := fun p key => p + key
  sp_artistbrowse_num_albums := fun _ => 4
  sp_artistbrowse_album := fun p key => p + key
  sp_artistbrowse_num_similar_artists := fun _ => 5
  sp_artistbrowse_similar_artist := fun p key => p + key

/-- `countP` distributes over list append (specialised to acquisitions). -/
theorem acquisitions_append (p : Ptr) (t1 t2 : List NativeCall) :
    acquisitions p (t1 ++ t2) = acquisitions p t1 + acquisitions p t2 :=
  List.countP_append _ _ _

/-- `countP` distributes over list append (specialised to releases). -/
theorem releases_append (p : Ptr) (t1 t2 : List NativeCall) :
    releases p (t1 ++ t2) = releases p t1 + releases p t2 :=
  List.countP_append _ _ _

/-- Destroying an `Artist` wrapper acquires nothing. -/
theorem acquisitions_artist_destroy (a : Artist) :
    acquisitions a.sp_artist a.destroy = 0 := by
  simp [Artist.destroy, acquisitions, isAcqFor, List.countP_cons]

/-- Destroying an `Artist` wrapper releases exactly one reference. -/
theorem releases_artist_destroy (a : Artist) :
    releases a.sp_artist a.destroy = 1 := by
  simp [Artist.destroy, releases, isRelFor, List.countP_cons]

/-- Destroying an `ArtistBrowser` wrapper acquires nothing. -/
theorem acquisitions_browser_destroy (b : ArtistBrowser) :
    acquisitions b.sp_artistbrowse b.destroy = 0 := by
  simp [ArtistBrowser.destroy, acquisitions, isAcqFor, List.countP_cons]

/-- Destroying an `ArtistBrowser` wrapper releases exactly one
reference. -/
theorem releases_browser_destroy (b : ArtistBrowser) :
    releases b.sp_artistbrowse b.destroy = 1 := by
  simp [ArtistBrowser.destroy, releases, isRelFor, List.countP_cons]

/-- A successful `Artist.__init__` acquires exactly one reference to the
wrapped pointer and releases none. -/
theorem artist_init_counts (L : SpLib) (uri : Option String)
    (sp0 : Option Ptr) (a : Artist) (itr : List NativeCall)
    (h : Artist.init L uri sp0 = (.ok a, itr)) :
    acquisitions a.sp_artist itr = 1 ∧ releases a.sp_artist itr = 0 := by
  unfold Artist.init at h
  split at h
  · simp at h
  · cases uri with
    | some u =>
      cases hres : L.link_as_artist u with
      | none => simp [hres] at h
      | some q =>
        simp only [hres, Prod.mk.injEq, Except.ok.injEq] at h
        obtain ⟨ha, htr⟩ := h
        subst ha; subst htr
        simp [acquisitions, releases, isAcqFor, isRelFor, List.countP_cons]
    | none =>
      cases sp0 with
      | some q =>
        simp only [Prod.mk.injEq, Except.ok.injEq] at h
        obtain ⟨ha, htr⟩ := h
        subst ha; subst htr
        simp [acquisitions, releases, isAcqFor, isRelFor, List.countP_cons]
      | none => simp at h

/-- A successful `ArtistBrowser.__init__` acquires exactly one reference
to the wrapped pointer (counting the owned reference a caller hands over
with `add_ref=False`) and releases none. -/
theorem browser_init_counts (L : SpLib) (session : Ptr)
    (artist : Option Artist) (btype : Option ArtistBrowserType) (cb : Bool)
    (sp_ab0 : Option Ptr) (ar : Bool) (nh : Ptr) (b : ArtistBrowser)
    (itr : List NativeCall)
    (h : ArtistBrowser.init L session artist btype cb sp_ab0 ar nh =
      (.ok b, itr)) :
    acquisitions b.sp_artistbrowse itr + externOwned sp_ab0 ar = 1 ∧
    releases b.sp_artistbrowse itr = 0 := by
  unfold ArtistBrowser.init at h
  split at h
  · simp at h
  · cases sp_ab0 with
    | none =>
      cases artist with
      | none => simp at h
      | some a =>
        simp only [Prod.mk.injEq, Except.ok.injEq] at h
        obtain ⟨hb, htr⟩ := h
        subst hb; subst htr
        simp [acquisitions, releases, isAcqFor, isRelFor, externOwned,
          List.countP_cons]
    | some q =>
      cases ar with
      | true =>
        simp only [Prod.mk.injEq, Except.ok.injEq, ite_true] at h
        obtain ⟨hb, htr⟩ := h
        subst hb; subst htr
        simp [acquisitions, releases, isAcqFor, isRelFor, externOwned,
          List.countP_cons]
      | false =>
        simp only [Prod.mk.injEq, Except.ok.injEq, Bool.false_eq_true,
          ite_false] at h
        obtain ⟨hb, htr⟩ := h
        subst hb; subst htr
        simp [acquisitions, releases, isAcqFor, isRelFor, externOwned,
          List.countP_cons]

/-- Claim C1: over the full lifecycle (construct, then destroy) of any
`Artist` or `ArtistBrowser` wrapper, exactly one reference to the wrapped
pointer is acquired (an `add_ref`, an owned reference returned by
`sp_artistbrowse_create`, or an owned reference handed over with
`add_ref=False`) and exactly one is released, so the net reference-count
delta is zero. -/
theorem c1_refcount_lifecycle (L : SpLib) :
    (∀ uri sp0 p tr, runArtistLifecycle L uri sp0 = some (p, tr) →
        acquisitions p tr = 1 ∧ releases p tr = 1 ∧
        (acquisitions p tr : Int) - releases p tr = 0) ∧
    (∀ session artist btype cb sp_ab0 ar nh p tr,
        runBrowserLifecycle L session artist btype cb sp_ab0 ar nh =
          some (p, tr) →
        acquisitions p tr + externOwned sp_ab0 ar = 1 ∧
        releases p tr = 1 ∧
        (acquisitions p tr + externOwned sp_ab0 ar : Int) -
          releases p tr = 0) := by
  constructor
  · intro uri sp0 p tr hrun
    unfold runArtistLifecycle at hrun
    cases hinit : Artist.init L uri sp0 with
    | mk res itr =>
      rw [hinit] at hrun
      cases res with
      | error e => simp at hrun
      | ok a =>
        simp only [Option.some.injEq, Prod.mk.injEq] at hrun
        obtain ⟨hp, htr⟩ := hrun
        subst hp; subst htr
        obtain ⟨hacq, hrel⟩ := artist_init_counts L uri sp0 a itr hinit
        have h1 : acquisitions a.sp_artist (itr ++ a.destroy) = 1 := by
          rw [acquisitions_append, hacq, acquisitions_artist_destroy]
        have h2 : releases a.sp_artist (itr ++ a.destroy) = 1 := by
          rw [releases_append, hrel, releases_artist_destroy]
        refine ⟨h1, h2, ?_⟩
        rw [h1, h2]
        simp
  · intro session artist btype cb sp_ab0 ar nh p tr hrun
    unfold runBrowserLifecycle at hrun
    cases hinit : ArtistBrowser.init L session artist btype cb sp_ab0 ar nh
        with
    | mk res itr =>
      rw [hinit] at hrun
      cases res with
      | error e => simp at hrun
      | ok b =>
        simp only [Option.some.injEq, Prod.mk.injEq] at hrun
        obtain ⟨hp, htr⟩ := hrun
        subst hp; subst htr
        obtain ⟨hacq, hrel⟩ :=
          browser_init_counts L session artist btype cb sp_ab0 ar nh b itr
            hinit
        have h1 : acquisitions b.sp_artistbrowse (itr ++ b.destroy) +
            externOwned sp_ab0 ar = 1 := by
          rw [acquisitions_append, acquisitions_browser_destroy]
          omega
        have h2 : releases b.sp_artistbrowse (itr ++ b.destroy) = 1 := by
          rw [releases_append, hrel, releases_browser_destroy]
        refine ⟨h1, h2, ?_⟩
        rw [h2]
        push_cast [← h1]
        simp

/-- Witness for C1: the full lifecycle of an `Artist` built from a URI
that `testLib` resolves to native pointer `7`. -/
theorem c1_refcount_lifecycle_witness :
    runArtistLifecycle testLib (some "a") none =
      some (7, [.linkResolve "a", .addRefArtist 7, .releaseArtist 7]) ∧
    acquisitions 7 [.linkResolve "a", .addRefArtist 7, .releaseArtist 7] =
      1 ∧
    releases 7 [.linkResolve "a", .addRefArtist 7, .releaseArtist 7] = 1 :=
  ⟨by decide, ((c1_refcount_lifecycle testLib).1 (some "a") none 7 _
      (by decide)).1,
    (((c1_refcount_lifecycle testLib).1 (some "a") none 7 _
      (by decide)).2).1⟩

/-- Claim C10: constructing an `Artist` with `uri = None` and
`sp_artist = None`, or an `ArtistBrowser` with `artist = None` and
`sp_artistbrowse = None`, fails the constructor assertion before any
native call is made (the returned trace is empty), so at least one
identifying argument is a precondition of both public constructors. -/
theorem c10_constructor_assertions (L : SpLib) (session : Ptr)
    (btype : Option ArtistBrowserType) (cb : Bool) (ar : Bool) (nh : Ptr) :
    Artist.init L none none =
      (.error (.assertionError "uri or sp_artist is required"), []) ∧
    ArtistBrowser.init L session none btype cb none ar nh =
      (.error (.assertionError "artist or sp_artistbrowse is required"), []) :=
  ⟨rfl, rfl⟩

/-- Claim C6: the browse-complete callback invoked with a NULL userdata
handle logs a debug line and a warning and returns: the browser state is
returned unchanged (no deregistration, no event set) and the action list
contains no `removeHandle`, `setEvent` or `userCallback`. -/
theorem c6_null_handle_callback (sp : Ptr) (cb : Bool) (b : ArtistBrowser) :
    artistbrowse_complete_callback sp 0 cb b =
      .ok (b, [.logDebug, .logWarning]) :=
  rfl

/-- Claim C9: `Artist.browse` with `type = None` creates the
`ArtistBrowser` through `sp_artistbrowse_create` with browse type
`ArtistBrowserType.FULL`; the statement holds for every artist and every
`SpLib` (in particular whatever `sp_artist_is_loaded` returns, so the
artist need not be loaded), and the browser is returned directly. -/
theorem c9_browse_defaults (L : SpLib) (session : Ptr) (a : Artist)
    (cb : Bool) (nh : Ptr) :
    Artist.browse L session a none cb nh =
      (.ok { sp_artistbrowse :=
               L.sp_artistbrowse_create session a.sp_artist
                 (ArtistBrowserType.toInt .full) nh,
             complete_event := false,
             callback_handles := [nh] },
       [.browseCreate session a.sp_artist (ArtistBrowserType.toInt .full) nh
          (L.sp_artistbrowse_create session a.sp_artist
             (ArtistBrowserType.toInt .full) nh)]) :=
  rfl

/-- Claim C4 (code bug): the `get_image` element accessor inside
`ArtistBrowser.portraits` calls the two-argument native `sp_image_create`
with only the portrait identifier, omitting the session handle that
`Artist.portrait` passes; cffi therefore raises `TypeError` on every
element access and no image-create native call ever happens (empty
trace). -/
theorem c4_portraits_image_create_missing_session (L : SpLib)
    (sp_artistbrowse : Ptr) (key : Nat) :
    portraitsGetImage L sp_artistbrowse key =
      (.error (.typeError "sp_image_create expects exactly 2 arguments"),
       []) :=
  rfl

/-- Claim C8: `backend_request_duration` returns `None` whenever the
browser is not loaded, and otherwise returns the raw native duration
value (whose `-1` value is documented as the served-from-local-cache
sentinel, other values being milliseconds). -/
theorem c8_backend_request_duration (L : SpLib) (b : ArtistBrowser) :
    (b.is_loaded L = false → b.backend_request_duration L = none) ∧
    (b.is_loaded L = true →
      b.backend_request_duration L =
        some (L.sp_artistbrowse_backend_request_duration
          b.sp_artistbrowse)) := by
  constructor <;> intro h <;>
    simp [ArtistBrowser.backend_request_duration, h]

/-- Witness for C8 at a concrete loaded browser of `testLib`, whose
backend duration is the `-1` cache sentinel. -/
theorem c8_backend_request_duration_witness :
    ArtistBrowser.is_loaded testLib ⟨42, false, []⟩ = true ∧
    ArtistBrowser.backend_request_duration testLib ⟨42, false, []⟩ =
      some (-1) :=
  ⟨rfl, (c8_backend_request_duration testLib ⟨42, false, []⟩).2 rfl⟩

/-- Claim C2: for a browse-complete callback invocation with a non-null,
registered handle, the callback removes the handle from
`_callback_handles`, then sets `complete_event`, and only then runs the
user callback (the action list is exactly deregistration, signal, then
user callback); and whenever the native object reports loaded at that
point (which the SDK guarantees when firing the completion callback), the
browser the user callback observes has `is_loaded = true`. -/
theorem c2_callback_ordering (L : SpLib) (sp h : Ptr) (cb : Bool)
    (b : ArtistBrowser) (hnz : h ≠ 0) (hmem : h ∈ b.callback_handles) :
    artistbrowse_complete_callback sp h cb b =
      .ok ({ sp_artistbrowse := b.sp_artistbrowse,
             complete_event := true,
             callback_handles := b.callback_handles.erase h },
           [.logDebug, .removeHandle h, .setEvent] ++
             (if cb then [.userCallback] else [])) ∧
    (L.sp_artistbrowse_is_loaded b.sp_artistbrowse = true →
      ArtistBrowser.is_loaded L
        { sp_artistbrowse := b.sp_artistbrowse,
          complete_event := true,
          callback_handles := b.callback_handles.erase h } = true) := by
  refine ⟨?_, fun hl => hl⟩
  unfold artistbrowse_complete_callback
  simp [hnz, hmem]

/-- Witness for C2 at a concrete registered handle of a loaded browser. -/
theorem c2_callback_ordering_witness :
    (3 : Ptr) ≠ 0 ∧ (3 : Ptr) ∈ ([3] : List Ptr) ∧
    (artistbrowse_complete_callback 42 3 true ⟨42, false, [3]⟩ =
      .ok ({ sp_artistbrowse := 42,
             complete_event := true,
             callback_handles := ([3] : List Ptr).erase 3 },
           [.logDebug, .removeHandle 3, .setEvent] ++
             (if true then [.userCallback] else [])) ∧
     (testLib.sp_artistbrowse_is_loaded 42 = true →
       ArtistBrowser.is_loaded testLib
         { sp_artistbrowse := 42,
           complete_event := true,
           callback_handles := ([3] : List Ptr).erase 3 } = true)) :=
  ⟨by decide, by decide,
   c2_callback_ordering testLib 42 3 true ⟨42, false, [3]⟩ (by decide)
     (by decide)⟩

/-- Claim C5: when the browser is not loaded, each of the five collection
properties returns the empty list (as total functions they cannot raise);
when it is loaded, each returns the lazy `utils.Sequence` over the
browser's native handle with the corresponding native length and element
accessors. -/
theorem c5_collection_properties (L : SpLib) (b : ArtistBrowser) :
    (b.is_loaded L = false →
      b.portraits L = .emptyList ∧
      b.tracks L = .emptyList ∧
      b.tophit_tracks L = .emptyList ∧
      b.albums L = .emptyList ∧
      b.similar_artists L = .emptyList) ∧
    (b.is_loaded L = true →
      b.portraits L = .seq
        { sp_obj := b.sp_artistbrowse,
          add_ref_func := NativeCall.addRefBrowse,
          release_func := NativeCall.releaseBrowse,
          len_func := L.sp_artistbrowse_num_portraits,
          getitem_func := fun sp key => portraitsGetImage L sp key } ∧
      b.tracks L = .seq
        { sp_obj := b.sp_artistbrowse,
          add_ref_func := NativeCall.addRefBrowse,
          release_func := NativeCall.releaseBrowse,
          len_func := L.sp_artistbrowse_num_tracks,
          getitem_func := fun sp key =>
            (.ok ⟨L.sp_artistbrowse_track sp key⟩, []) } ∧
      b.tophit_tracks L = .seq
        { sp_obj := b.sp_artistbrowse,
          add_ref_func := NativeCall.addRefBrowse,
          release_func := NativeCall.releaseBrowse,
          len_func := L.sp_artistbrowse_num_tophit_tracks,
          getitem_func := fun sp key =>
            (.ok ⟨L.sp_artistbrowse_tophit_track sp key⟩, []) } ∧
      b.albums L = .seq
        { sp_obj := b.sp_artistbrowse,
          add_ref_func := NativeCall.addRefBrowse,
          release_func := NativeCall.releaseBrowse,
          len_func := L.sp_artistbrowse_num_albums,
          getitem_func := fun sp key =>
            (.ok ⟨L.sp_artistbrowse_album sp key⟩, []) } ∧
      b.similar_artists L = .seq
        { sp_obj := b.sp_artistbrowse,
          add_ref_func := NativeCall.addRefBrowse,
          release_func := NativeCall.releaseBrowse,
          len_func := L.sp_artistbrowse_num_similar_artists,
          getitem_func := fun sp key =>
            Artist.init L none
              (some (L.sp_artistbrowse_similar_artist sp key)) }) := by
  constructor <;> intro hl <;>
    refine ⟨?_, ?_, ?_, ?_, ?_⟩ <;>
      simp [ArtistBrowser.portraits, ArtistBrowser.tracks,
        ArtistBrowser.tophit_tracks, ArtistBrowser.albums,
        ArtistBrowser.similar_artists, hl]

/-- Witness for C5: an unloaded and a loaded concrete browser of
`testLib`; the unloaded one yields an empty `portraits`, the loaded one
the lazy sequence. -/
theorem c5_collection_properties_witness :
    ArtistBrowser.is_loaded testLib ⟨1, false, []⟩ = false ∧
    ArtistBrowser.is_loaded testLib ⟨42, false, []⟩ = true ∧
    ArtistBrowser.portraits testLib ⟨1, false, []⟩ = .emptyList ∧
    ArtistBrowser.portraits testLib ⟨42, false, []⟩ = .seq
      { sp_obj := 42,
        add_ref_func := NativeCall.addRefBrowse,
        release_func := NativeCall.releaseBrowse,
        len_func := testLib.sp_artistbrowse_num_portraits,
        getitem_func := fun sp key => portraitsGetImage testLib sp key } :=
  ⟨rfl, rfl,
   ((c5_collection_properties testLib ⟨1, false, []⟩).1 rfl).1,
   ((c5_collection_properties testLib ⟨42, false, []⟩).2 rfl).1⟩

/-- Claim C3: when the assertion passes (the URI is a nonempty string, or
an `sp_artist` was also supplied) and the URI does not resolve to an
artist, `Artist.__init__` raises the invalid-URI `ValueError` with only
the link resolution in the trace: no `add_ref`, no release and no browse
call is made, and no `Artist` value is produced. -/
theorem c3_invalid_uri_raises (L : SpLib) (u : String) (sp0 : Option Ptr)
    (htruthy : (truthyStr (some u) || truthyPtr sp0) = true)
    (hres : L.link_as_artist u = none) :
    Artist.init L (some u) sp0 =
      (.error (.valueError "Failed to get artist from Spotify URI"),
       [.linkResolve u]) ∧
    (∀ p, acquisitions p [.linkResolve u] = 0) ∧
    (∀ p, releases p [.linkResolve u] = 0) ∧
    countBrowseCreates [.linkResolve u] = 0 := by
  refine ⟨?_, ?_, ?_, ?_⟩
  · unfold Artist.init
    simp [htruthy, hres]
  · intro p
    simp [acquisitions, isAcqFor, List.countP, List.countP.go]
  · intro p
    simp [releases, isRelFor, List.countP, List.countP.go]
  · simp [countBrowseCreates, List.countP, List.countP.go]

/-- Witness for C3: a URI `testLib` does not resolve to an artist. -/
theorem c3_invalid_uri_raises_witness :
    (truthyStr (some "spotify:track:b") || truthyPtr none) = true ∧
    testLib.link_as_artist "spotify:track:b" = none ∧
    Artist.init testLib (some "spotify:track:b") none =
      (.error (.valueError "Failed to get artist from Spotify URI"),
       [.linkResolve "spotify:track:b"]) :=
  ⟨by decide, by decide,
   (c3_invalid_uri_raises testLib "spotify:track:b" none (by decide)
     (by decide)).1⟩

/-- Claim C7: the `_callback_handles` registration set always has 0 or 1
entries: `Artist.browse` construction registers exactly the one fresh
handle; adopting an existing native browse handle registers none; every
successful constructor call leaves at most one entry; and the complete
callback only ever removes (never grows the set), removing exactly the
registered context when it fires on it. -/
theorem c7_registration_set (L : SpLib) :
    (∀ session a btype cb nh br tr,
        Artist.browse L session a btype cb nh = (.ok br, tr) →
        br.callback_handles = [nh]) ∧
    (∀ session artist btype cb q ar nh br tr,
        ArtistBrowser.init L session artist btype cb (some q) ar nh =
          (.ok br, tr) →
        br.callback_handles = []) ∧
    (∀ session artist btype cb sp_ab0 ar nh br tr,
        ArtistBrowser.init L session artist btype cb sp_ab0 ar nh =
          (.ok br, tr) →
        br.callback_handles.length ≤ 1) ∧
    (∀ sp h cb b b' acts,
        artistbrowse_complete_callback sp h cb b = .ok (b', acts) →
        b'.callback_handles.length ≤ b.callback_handles.length ∧
        (b.callback_handles = [h] → h ≠ 0 → b'.callback_handles = [])) := by
  have hinit : ∀ session artist btype cb sp_ab0 ar nh br
      (tr : List NativeCall),
      ArtistBrowser.init L session artist btype cb sp_ab0 ar nh =
        (.ok br, tr) →
      br.callback_handles = [nh] ∨ br.callback_handles = [] := by
    intro session artist btype cb sp_ab0 ar nh br tr h
    unfold ArtistBrowser.init at h
    split at h
    · simp at h
    · cases sp_ab0 with
      | none =>
        cases artist with
        | none => simp at h
        | some a =>
          simp only [Prod.mk.injEq, Except.ok.injEq] at h
          obtain ⟨hb, -⟩ := h
          subst hb
          exact Or.inl rfl
      | some q =>
        cases ar with
        | true =>
          simp only [Prod.mk.injEq, Except.ok.injEq, ite_true] at h
          obtain ⟨hb, -⟩ := h
          subst hb
          exact Or.inr rfl
        | false =>
          simp only [Prod.mk.injEq, Except.ok.injEq, Bool.false_eq_true,
            ite_false] at h
          obtain ⟨hb, -⟩ := h
          subst hb
          exact Or.inr rfl
  refine ⟨?_, ?_, ?_, ?_⟩
  · intro session a btype cb nh br tr h
    unfold Artist.browse at h
    unfold ArtistBrowser.init at h
    simp only [Option.isSome_some, Bool.true_or, Bool.not_true,
      Bool.false_eq_true, ite_false, Prod.mk.injEq, Except.ok.injEq] at h
    obtain ⟨hb, -⟩ := h
    subst hb
    rfl
  · intro session artist btype cb q ar nh br tr h
    rcases hinit session artist btype cb (some q) ar nh br tr h with hc | hc
    · -- the adopt branches never register a handle, so this case needs a
      -- closer look at the constructor
      unfold ArtistBrowser.init at h
      split at h
      · simp at h
      · cases ar with
        | true =>
          simp only [Prod.mk.injEq, Except.ok.injEq, ite_true] at h
          obtain ⟨hb, -⟩ := h
          subst hb
          rfl
        | false =>
          simp only [Prod.mk.injEq, Except.ok.injEq, Bool.false_eq_true,
            ite_false] at h
          obtain ⟨hb, -⟩ := h
          subst hb
          rfl
    · exact hc
  · intro session artist btype cb sp_ab0 ar nh br tr h
    rcases hinit session artist btype cb sp_ab0 ar nh br tr h with hc | hc <;>
      simp [hc]
  · intro sp h cb b b' acts hcall
    unfold artistbrowse_complete_callback at hcall
    split at hcall
    · simp only [Except.ok.injEq, Prod.mk.injEq] at hcall
      obtain ⟨hb, -⟩ := hcall
      subst hb
      constructor
      · exact le_refl _
      · intro hone hnz
        exfalso
        exact hnz (by simpa using ‹(h == 0) = true›)
    · split at hcall
      · simp only [Except.ok.injEq, Prod.mk.injEq] at hcall
        obtain ⟨hb, -⟩ := hcall
        subst hb
        constructor
        · exact (List.erase_sublist _ _).length_le
        · intro hone hnz
          simp [hone]
      · simp at hcall

/-- Witness for C7: browsing a concrete artist of `testLib` registers
exactly the one fresh handle `3`, and the complete callback empties the
registration set. -/
theorem c7_registration_set_witness :
    Artist.browse testLib 0 ⟨7⟩ none false 3 =
      (.ok ⟨42, false, [3]⟩, [.browseCreate 0 7 0 3 42]) ∧
    (⟨42, false, [3]⟩ : ArtistBrowser).callback_handles = [3] ∧
    artistbrowse_complete_callback 42 3 false ⟨42, false, [3]⟩ =
      .ok (⟨42, true, []⟩, [.logDebug, .removeHandle 3, .setEvent]) ∧
    (⟨42, true, []⟩ : ArtistBrowser).callback_handles = [] :=
  ⟨rfl, (c7_registration_set testLib).1 0 ⟨7⟩ none false 3
      ⟨42, false, [3]⟩ [.browseCreate 0 7 0 3 42] rfl,
   rfl,
   (((c7_registration_set testLib).2.2.2 42 3 false ⟨42, false, [3]⟩
      ⟨42, true, []⟩ [.logDebug, .removeHandle 3, .setEvent]
      rfl).2 (by decide) (by decide))⟩

end PySpotify
